import Mathlib

/-!
Verification of the KeywordResearchTool Flask application (`src/app.py`).

The app is shallowly embedded: pandas data frames become a `Frame` of a date
index together with named value columns; the pytrends client becomes an
environment `query : String → ProviderResult` (one result per timeframe
string, `err` modelling a raised exception) plus a flag `clientOk` modelling
whether `TrendReq(...)` construction succeeds; `random.randint(-10, 10)` in
`generate_demo_data` becomes a stream `rng : Nat → Int`; calendar dates
become integer day numbers with `demoNow` standing for `datetime.now()`;
`time.time()` values become rationals; the only modelled source of
post-fetch exceptions is the chart write (`plt.savefig`), a boolean
`chartOk`, matching the spec's "always succeeds unless the filesystem write
fails".
-/

/-- A pandas data frame as used by the app: a date index plus named integer
columns.  `df.empty` is row-emptiness, `k in df.columns` is membership in
the column names, `df[k].sum()` sums the column's values. -/
structure Frame where
  dates : List Int
  cols : List (String × List Int)
deriving Repr, DecidableEq

/-- `df.empty` — true when any axis has length 0: no rows or no columns. -/
def Frame.emptyb (f : Frame) : Bool := f.dates.isEmpty || f.cols.isEmpty

/-- `keyword in df.columns`. -/
def Frame.hasColb (f : Frame) (k : String) : Bool :=
  (f.cols.map Prod.fst).contains k

/-- `df[k]` — the values of column `k` (empty when absent). -/
def Frame.colValues (f : Frame) (k : String) : List Int :=
  match f.cols.find? (fun c => c.fst == k) with
  | some c => c.snd
  | none => []

/-- `df[k].sum()`. -/
def Frame.colSum (f : Frame) (k : String) : Int := (f.colValues k).sum

/-- Outcome of one provider call (`build_payload` + `interest_over_time`):
either a frame, or a raised exception. -/
inductive ProviderResult where
  | ok (f : Frame)
  | err
deriving Repr, DecidableEq

/-- `pd.date_range(start=start, end=stop, freq='D')` on integer day numbers
with `start ≤ stop`: the days `start, start+1, …, stop` inclusive. -/
def date_range (start stop : Int) : List Int :=
  (List.range ((stop - start).toNat + 1)).map
    (fun (i : Nat) => start + (i : Int))

/-- `base_trend` from `generate_demo_data` (src/app.py line 26). -/
def base_trend : List Int :=
  [50, 55, 60, 65, 70, 75, 80, 85, 90, 85, 80, 75, 70, 65, 60]

/-- One value of the demo series (src/app.py lines 31-34):
`max(10, base_trend[i % len(base_trend)] + random.randint(-10, 10))`,
with the random stream explicit. -/
def demoValue (rng : Nat → Int) (i : Nat) : Int :=
  max 10 (base_trend.getD (i % base_trend.length) 0 + rng i)

/-- `generate_demo_data(keyword)` (src/app.py lines 18-43): dates over the
90-day window ending at `demoNow`, one column named by the keyword.  When
the keyword is exactly `"date"`, the Python dict literal
`{'date': dates, keyword: values}` collapses its duplicate key (the later
binding wins), so the frame is built from `{'date': values}` alone and
`set_index('date')` then leaves a zero-column frame whose index holds the
perturbed values — the date sequence is lost. -/
def generate_demo_data (keyword : String) (rng : Nat → Int) (demoNow : Int) :
    Frame :=
  let dates := date_range (demoNow - 90) demoNow
  let values := (List.range dates.length).map (demoValue rng)
  if keyword = "date" then
    { dates := values, cols := [] }
  else
    { dates := dates, cols := [(keyword, values)] }

/-- The triple returned by `get_trends_data`: `(data, timeframe_used,
is_real_data)`. -/
structure FetchResult where
  data : Frame
  label : String
  isReal : Bool
deriving Repr, DecidableEq

/-- The candidate timeframes, in order (src/app.py line 52). -/
def timeframes : List String := ["now 7-d", "today 1-m", "today 3-m"]

/-- The acceptance test of src/app.py line 60:
`not data.empty and keyword in data.columns and data[keyword].sum() > 0`. -/
def accepts (k : String) (f : Frame) : Bool :=
  !f.emptyb && f.hasColb k && decide (0 < f.colSum k)

/-- A provider call that does not end the loop: it raised, or its frame
fails the line-60 acceptance test. -/
def rejected (k : String) : ProviderResult → Bool
  | .err => true
  | .ok f => !accepts k f

/-- The `for timeframe in timeframes` loop of src/app.py lines 54-65: a
raised exception or a rejected frame moves on to the next candidate; the
first accepted frame is returned with its timeframe. -/
def tryTimeframes (k : String) (query : String → ProviderResult) :
    List String → Option (Frame × String)
  | [] => none
  | tf :: rest =>
    match query tf with
    | .ok f => if accepts k f then some (f, tf) else tryTimeframes k query rest
    | .err => tryTimeframes k query rest

/-- The fixed fallback label (src/app.py lines 70 and 76). -/
def demoLabel : String := "demo (last 3 months)"

/-- `get_trends_data(keyword)` (src/app.py lines 45-76).  `clientOk = false`
models `TrendReq(...)` raising, landing in the outer `except`; otherwise the
timeframes are tried in order and on total failure the demo data is
returned. -/
def get_trends_data (k : String) (clientOk : Bool)
    (query : String → ProviderResult) (rng : Nat → Int) (demoNow : Int) :
    FetchResult :=
  if clientOk then
    match tryTimeframes k query timeframes with
    | some (f, tf) => ⟨f, tf, true⟩
    | none => ⟨generate_demo_data k rng demoNow, demoLabel, false⟩
  else
    ⟨generate_demo_data k rng demoNow, demoLabel, false⟩

/-- The rate-limiter wait performed by both handlers (src/app.py lines 92-98
and 189-194): if less than 10 seconds have elapsed since
`last_request_time`, sleep the remainder, else proceed at once.  Returns the
slept duration. -/
def waitFor (now last : ℚ) : ℚ :=
  if now - last < 10 then 10 - (now - last) else 0

/-- Python's `str.strip()` with no argument: remove leading and trailing
whitespace, as in `request.form.get("keyword", "").strip()`. -/
def strip (s : String) : String :=
  ⟨(((s.data.dropWhile Char.isWhitespace).reverse).dropWhile
      Char.isWhitespace).reverse⟩

/-- The error messages the page handler can produce. -/
inductive PageError where
  | validation
  | noData (k : String)
  | processing
deriving Repr, DecidableEq

/-- The user-facing text of a page error (`processing` carries `str(e)` in
the source, which the model leaves abstract). -/
def PageError.message : PageError → String
  | .validation => "Please enter a keyword to search."
  | .noData k => "No trend data found for " ++ k ++ "."
  | .processing => "Error processing your request."

/-- Observable outcome of one POST to `/`: the rendered error (if any),
whether a results table was rendered (`some b`, `b` = demo-notice
prepended), the slept duration, whether `get_trends_data` was invoked,
whether the chart file was written, and whether `last_request_time` was
assigned. -/
structure PageOutcome where
  error : Option PageError
  results : Option Bool
  slept : ℚ
  fetched : Bool
  chartWritten : Bool
  timestampUpdated : Bool
deriving Repr, DecidableEq

/-- The post-validation body of the page handler (src/app.py lines 91-168),
operating on whatever triple `get_trends_data` returned.  `chartOk = false`
models `plt.savefig` raising, which lands in the handler's `except` (line
165) before `last_request_time` is assigned (line 163). -/
def index_body (keyword : String) (slept : ℚ) (r : FetchResult)
    (chartOk : Bool) : PageOutcome :=
  if !r.data.emptyb && r.data.hasColb keyword then
    if chartOk then
      ⟨none, some (!r.isReal), slept, true, true, true⟩
    else
      ⟨some .processing, none, slept, true, false, false⟩
  else
    ⟨some (.noData keyword), none, slept, true, false, true⟩

/-- `index()` on POST (src/app.py lines 78-170): strip the keyword, report a
validation error when empty, otherwise rate-limit, fetch and render. -/
def index (kw : String) (now last : ℚ) (clientOk : Bool)
    (query : String → ProviderResult) (rng : Nat → Int) (demoNow : Int)
    (chartOk : Bool) : PageOutcome :=
  let keyword := strip kw
  if keyword = "" then
    ⟨some .validation, none, 0, false, false, false⟩
  else
    index_body keyword (waitFor now last)
      (get_trends_data keyword clientOk query rng demoNow) chartOk

/-- The JSON body returned by `/analyze`: the success payload of src/app.py
lines 219-225 (implicit status 200), or `{error}` with an explicit status. -/
inductive AnalyzeResponse where
  | ok (dates : List Int) (values : List Int) (timeframe_used : String)
      (keyword : String) (is_demo_data : Bool)
  | err (status : Nat) (msg : String)
deriving Repr, DecidableEq

/-- The HTTP status of an analyze response. -/
def AnalyzeResponse.status : AnalyzeResponse → Nat
  | .ok .. => 200
  | .err s _ => s

/-- Observable outcome of one POST to `/analyze`. -/
structure AnalyzeOutcome where
  response : AnalyzeResponse
  slept : ℚ
  fetched : Bool
  chartWritten : Bool
  timestampUpdated : Bool
deriving Repr, DecidableEq

/-- The post-validation body of the analyze handler (src/app.py lines
188-232), operating on whatever triple `get_trends_data` returned.  On the
success branch the chart is written before `last_request_time` is assigned
(line 227); a chart-write exception lands in the `except` of line 234
(status 500) with the timestamp untouched; the 404 branch does not assign
the timestamp either. -/
def analyze_body (keyword : String) (slept : ℚ) (r : FetchResult)
    (chartOk : Bool) : AnalyzeOutcome :=
  if !r.data.emptyb && r.data.hasColb keyword then
    if chartOk then
      ⟨.ok r.data.dates (r.data.colValues keyword) r.label keyword
        (!r.isReal), slept, true, true, true⟩
    else
      ⟨.err 500 "Server error", slept, true, false, false⟩
  else
    ⟨.err 404 ("No trend data found for " ++ keyword), slept, true, false,
      false⟩

/-- `analyze()` (src/app.py lines 180-238): strip the posted keyword, return
`{error}` with 400 when empty (before any rate limiting), otherwise
rate-limit, fetch and build the JSON payload. -/
def analyze (kw : String) (now last : ℚ) (clientOk : Bool)
    (query : String → ProviderResult) (rng : Nat → Int) (demoNow : Int)
    (chartOk : Bool) : AnalyzeOutcome :=
  let keyword := strip kw
  if keyword = "" then
    ⟨.err 400 "Please enter a keyword", 0, false, false, false⟩
  else
    analyze_body keyword (waitFor now last)
      (get_trends_data keyword clientOk query rng demoNow) chartOk

/-! ## Helper lemmas -/

lemma date_range_90_length (demoNow : Int) :
    (date_range (demoNow - 90) demoNow).length = 91 := by
  simp only [date_range, List.length_map, List.length_range]
  omega

lemma date_range_90_isEmpty (demoNow : Int) :
    (date_range (demoNow - 90) demoNow).isEmpty = false := by
  have h := date_range_90_length demoNow
  cases hd : date_range (demoNow - 90) demoNow with
  | nil => rw [hd] at h; exact absurd h (by decide)
  | cons a l => rfl

lemma demo_dates_length (k : String) (rng : Nat → Int) (demoNow : Int)
    (hk : k ≠ "date") :
    (generate_demo_data k rng demoNow).dates.length = 91 := by
  simp only [generate_demo_data, if_neg hk]
  exact date_range_90_length demoNow

lemma demo_dates_getD (k : String) (rng : Nat → Int) (demoNow : Int)
    (hk : k ≠ "date") (i : Nat) (hi : i < 91) :
    (generate_demo_data k rng demoNow).dates.getD i 0 = demoNow - 90 + i := by
  simp only [generate_demo_data, if_neg hk]
  rw [List.getD_eq_getElem _ _ (by rw [date_range_90_length demoNow]; exact hi)]
  simp only [date_range, List.getElem_map, List.getElem_range]

lemma demo_colValues (k : String) (rng : Nat → Int) (demoNow : Int)
    (hk : k ≠ "date") :
    (generate_demo_data k rng demoNow).colValues k =
      (List.range 91).map (demoValue rng) := by
  simp only [generate_demo_data, if_neg hk, Frame.colValues,
    date_range_90_length]
  rw [List.find?_cons_of_pos]
  simp

lemma demo_hasColb (k : String) (rng : Nat → Int) (demoNow : Int)
    (hk : k ≠ "date") :
    (generate_demo_data k rng demoNow).hasColb k = true := by
  simp [generate_demo_data, if_neg hk, Frame.hasColb]

lemma demo_nonempty (k : String) (rng : Nat → Int) (demoNow : Int)
    (hk : k ≠ "date") :
    (generate_demo_data k rng demoNow).emptyb = false := by
  simp only [generate_demo_data, if_neg hk, Frame.emptyb,
    date_range_90_isEmpty]
  rfl

lemma accepts_iff (k : String) (f : Frame) :
    accepts k f = true ↔
      f.emptyb = false ∧ f.hasColb k = true ∧ 0 < f.colSum k := by
  simp [accepts, and_assoc]

lemma tryTimeframes_some (k : String) (query : String → ProviderResult)
    (l : List String) (f : Frame) (tf : String)
    (h : tryTimeframes k query l = some (f, tf)) :
    tf ∈ l ∧ query tf = .ok f ∧ accepts k f = true := by
  induction l with
  | nil => simp [tryTimeframes] at h
  | cons hd tl ih =>
    rw [tryTimeframes] at h
    cases hq : query hd with
    | ok g =>
      rw [hq] at h
      by_cases ha : accepts k g = true
      · simp [ha] at h
        obtain ⟨hf, htf⟩ := h
        subst hf; subst htf
        exact ⟨List.mem_cons_self hd tl, hq, ha⟩
      · simp [Bool.eq_false_iff.mpr ha] at h
        obtain ⟨h1, h2, h3⟩ := ih h
        exact ⟨List.mem_cons_of_mem hd h1, h2, h3⟩
    | err =>
      rw [hq] at h
      obtain ⟨h1, h2, h3⟩ := ih h
      exact ⟨List.mem_cons_of_mem hd h1, h2, h3⟩

lemma tryTimeframes_none_of_rejected (k : String)
    (query : String → ProviderResult) (l : List String)
    (h : ∀ tf ∈ l, rejected k (query tf) = true) :
    tryTimeframes k query l = none := by
  induction l with
  | nil => rfl
  | cons hd tl ih =>
    rw [tryTimeframes]
    cases hq : query hd with
    | ok g =>
      have ha : accepts k g = false := by
        have hhd := h hd (List.mem_cons_self hd tl)
        rw [hq, rejected] at hhd
        simpa using hhd
      simp only [ha, Bool.false_eq_true, if_false]
      exact ih fun tf htf => h tf (List.mem_cons_of_mem hd htf)
    | err => exact ih fun tf htf => h tf (List.mem_cons_of_mem hd htf)

lemma index_body_slept (k : String) (s : ℚ) (r : FetchResult) (c : Bool) :
    (index_body k s r c).slept = s := by
  rw [index_body]
  split
  · split <;> rfl
  · rfl

lemma analyze_body_slept (k : String) (s : ℚ) (r : FetchResult) (c : Bool) :
    (analyze_body k s r c).slept = s := by
  rw [analyze_body]
  split
  · split <;> rfl
  · rfl

lemma fetch_guard_passes (k : String) (clientOk : Bool)
    (query : String → ProviderResult) (rng : Nat → Int) (demoNow : Int)
    (hk : k ≠ "date") :
    (get_trends_data k clientOk query rng demoNow).data.emptyb = false ∧
    (get_trends_data k clientOk query rng demoNow).data.hasColb k = true := by
  rw [get_trends_data]
  cases clientOk with
  | false => simpa using ⟨demo_nonempty k rng demoNow hk, demo_hasColb k rng demoNow hk⟩
  | true =>
    simp only [if_true]
    cases h : tryTimeframes k query timeframes with
    | none => simpa using ⟨demo_nonempty k rng demoNow hk, demo_hasColb k rng demoNow hk⟩
    | some p =>
      obtain ⟨f, tf⟩ := p
      obtain ⟨-, -, ha⟩ := tryTimeframes_some k query timeframes f tf h
      obtain ⟨h1, h2, -⟩ := (accepts_iff k f).mp ha
      exact ⟨h1, h2⟩

/-! ## Claim theorems -/

/-- C1: For every keyword, `get_trends_data` never raises: even when the
provider client cannot be constructed or every provider query fails, it
returns a triple (data frame, window label, is_real flag) — a `FetchResult`
that is either a real provider frame with one of the candidate window
labels, or the synthetic fallback. -/
theorem get_trends_data_never_raises (k : String) (clientOk : Bool)
    (query : String → ProviderResult) (rng : Nat → Int) (demoNow : Int) :
    (∃ f tf, tf ∈ timeframes ∧
      get_trends_data k clientOk query rng demoNow = ⟨f, tf, true⟩) ∨
    get_trends_data k clientOk query rng demoNow =
      ⟨generate_demo_data k rng demoNow, demoLabel, false⟩ := by
  rw [get_trends_data]
  cases clientOk with
  | false => right; rfl
  | true =>
    simp only [if_true]
    cases h : tryTimeframes k query timeframes with
    | none => right; rfl
    | some p =>
      obtain ⟨f, tf⟩ := p
      exact Or.inl ⟨f, tf, (tryTimeframes_some k query timeframes f tf h).1,
        rfl⟩

/-- C3: If the provider client cannot be constructed, or every one of the
three candidate queries raises, returns an empty frame, lacks the keyword
column or sums to zero, `get_trends_data` returns the synthetic series with
`is_real = false` and the exact label "demo (last 3 months)". -/
theorem get_trends_data_fallback (k : String) (clientOk : Bool)
    (query : String → ProviderResult) (rng : Nat → Int) (demoNow : Int)
    (h : clientOk = false ∨ ∀ tf ∈ timeframes, rejected k (query tf) = true) :
    get_trends_data k clientOk query rng demoNow =
      ⟨generate_demo_data k rng demoNow, "demo (last 3 months)", false⟩ := by
  rw [get_trends_data]
  cases h with
  | inl hc => rw [hc]; rfl
  | inr hr =>
    cases clientOk with
    | false => rfl
    | true =>
      rw [tryTimeframes_none_of_rejected k query timeframes hr]
      rfl

/-- Witness for C3: with an unconstructible client every input falls back to
the demo series. -/
theorem get_trends_data_fallback_witness :
    get_trends_data "python" false (fun _ => ProviderResult.err)
        (fun _ => (0 : Int)) 0 =
      ⟨generate_demo_data "python" (fun _ => (0 : Int)) 0,
        "demo (last 3 months)", false⟩ :=
  get_trends_data_fallback "python" false (fun _ => ProviderResult.err)
    (fun _ => (0 : Int)) 0 (Or.inl rfl)

/-- Counterexample to C10 as stated: at keyword "date" the dict-key
collision drops the value column and moves the perturbed values into the
index, so neither the date sequence nor the value sequence matches the ones
generated for another keyword under the same random stream and clock. -/
theorem generate_demo_data_keyword_cex :
    ¬((generate_demo_data "date" (fun _ => (0 : Int)) 100).dates =
        (generate_demo_data "python" (fun _ => (0 : Int)) 100).dates) ∧
    ¬((generate_demo_data "date" (fun _ => (0 : Int)) 100).colValues
          "date" =
        (generate_demo_data "python" (fun _ => (0 : Int)) 100).colValues
          "python") := by
  constructor <;> decide

/-- C10 amended: for any two keywords other than "date" (where the dict-key
collision corrupts the frame), the keyword influences only the name of the
value column: against the same random stream and clock the generated date
sequence and value sequence are identical. -/
theorem generate_demo_data_keyword_independent (k1 k2 : String)
    (rng : Nat → Int) (demoNow : Int) (h1 : k1 ≠ "date")
    (h2 : k2 ≠ "date") :
    (generate_demo_data k1 rng demoNow).dates =
      (generate_demo_data k2 rng demoNow).dates ∧
    (generate_demo_data k1 rng demoNow).colValues k1 =
      (generate_demo_data k2 rng demoNow).colValues k2 := by
  constructor
  · simp only [generate_demo_data, if_neg h1, if_neg h2]
  · rw [demo_colValues k1 rng demoNow h1, demo_colValues k2 rng demoNow h2]

/-- Witness for C10: two concrete keywords other than "date" generate
identical dates and values. -/
theorem generate_demo_data_keyword_independent_witness :
    (generate_demo_data "python" (fun _ => (0 : Int)) 100).dates =
      (generate_demo_data "music" (fun _ => (0 : Int)) 100).dates ∧
    (generate_demo_data "python" (fun _ => (0 : Int)) 100).colValues
        "python" =
      (generate_demo_data "music" (fun _ => (0 : Int)) 100).colValues
        "music" :=
  generate_demo_data_keyword_independent "python" "music"
    (fun _ => (0 : Int)) 100 (by decide) (by decide)

/-- C2: `get_trends_data` tries the candidate windows in the fixed order
"now 7-d", "today 1-m", "today 3-m"; a candidate is accepted iff its frame
is non-empty, contains the keyword's column, and has positive value sum; on
the first accepted candidate the function returns immediately with that
window's label and `is_real = true`, and later candidates are never
consulted (the result is fixed by the queries up to the accepted one). -/
theorem get_trends_data_first_accepted :
    (∀ (k : String) (f : Frame),
      accepts k f = true ↔
        (f.emptyb = false ∧ f.hasColb k = true ∧ 0 < f.colSum k)) ∧
    (∀ (k : String) (query : String → ProviderResult) (rng : Nat → Int)
        (demoNow : Int) (f : Frame),
      query "now 7-d" = .ok f → accepts k f = true →
      get_trends_data k true query rng demoNow = ⟨f, "now 7-d", true⟩) ∧
    (∀ (k : String) (query : String → ProviderResult) (rng : Nat → Int)
        (demoNow : Int) (f : Frame),
      rejected k (query "now 7-d") = true →
      query "today 1-m" = .ok f → accepts k f = true →
      get_trends_data k true query rng demoNow = ⟨f, "today 1-m", true⟩) ∧
    (∀ (k : String) (query : String → ProviderResult) (rng : Nat → Int)
        (demoNow : Int) (f : Frame),
      rejected k (query "now 7-d") = true →
      rejected k (query "today 1-m") = true →
      query "today 3-m" = .ok f → accepts k f = true →
      get_trends_data k true query rng demoNow = ⟨f, "today 3-m", true⟩) := by
  refine ⟨fun k f => accepts_iff k f, ?_, ?_, ?_⟩
  · intro k query rng demoNow f h1 ha
    simp [get_trends_data, timeframes, tryTimeframes, h1, ha]
  · intro k query rng demoNow f hr1 h2 ha
    cases hq : query "now 7-d" with
    | ok g =>
      rw [hq, rejected] at hr1
      have hg : accepts k g = false := by simpa using hr1
      simp [get_trends_data, timeframes, tryTimeframes, hq, hg, h2, ha]
    | err =>
      simp [get_trends_data, timeframes, tryTimeframes, hq, h2, ha]
  · intro k query rng demoNow f hr1 hr2 h3 ha
    cases hq1 : query "now 7-d" with
    | ok g1 =>
      rw [hq1, rejected] at hr1
      have hg1 : accepts k g1 = false := by simpa using hr1
      cases hq2 : query "today 1-m" with
      | ok g2 =>
        rw [hq2, rejected] at hr2
        have hg2 : accepts k g2 = false := by simpa using hr2
        simp [get_trends_data, timeframes, tryTimeframes, hq1, hg1, hq2, hg2,
          h3, ha]
      | err =>
        simp [get_trends_data, timeframes, tryTimeframes, hq1, hg1, hq2, h3,
          ha]
    | err =>
      cases hq2 : query "today 1-m" with
      | ok g2 =>
        rw [hq2, rejected] at hr2
        have hg2 : accepts k g2 = false := by simpa using hr2
        simp [get_trends_data, timeframes, tryTimeframes, hq1, hq2, hg2, h3,
          ha]
      | err =>
        simp [get_trends_data, timeframes, tryTimeframes, hq1, hq2, h3, ha]

/-- Witness for C2: a provider that answers only the first window with a
non-empty, keyword-containing, positive-sum frame makes `get_trends_data`
return that frame with label "now 7-d" and `is_real = true`. -/
theorem get_trends_data_first_accepted_witness :
    get_trends_data "python" true
        (fun tf => if tf = "now 7-d"
          then ProviderResult.ok ⟨[0], [("python", [5])]⟩
          else ProviderResult.err)
        (fun _ => (0 : Int)) 0 =
      ⟨⟨[0], [("python", [5])]⟩, "now 7-d", true⟩ :=
  get_trends_data_first_accepted.2.1 "python"
    (fun tf => if tf = "now 7-d"
      then ProviderResult.ok ⟨[0], [("python", [5])]⟩
      else ProviderResult.err)
    (fun _ => (0 : Int)) 0 ⟨[0], [("python", [5])]⟩ (by decide) (by decide)

/-- Counterexample to C4 as stated: at keyword "date" the returned frame
has no value column at all — the dict-key collision leaves a zero-column,
pandas-empty frame whose index holds the perturbed values and is not
strictly increasing — so the 91-point max(10, base + r) series claimed for
every keyword does not exist. -/
theorem generate_demo_data_date_cex :
    (generate_demo_data "date" (fun _ => (0 : Int)) 100).cols = [] ∧
    (generate_demo_data "date" (fun _ => (0 : Int)) 100).hasColb "date" =
      false ∧
    (generate_demo_data "date" (fun _ => (0 : Int)) 100).colValues "date" =
      [] ∧
    (generate_demo_data "date" (fun _ => (0 : Int)) 100).emptyb = true ∧
    (generate_demo_data "date" (fun _ => (0 : Int)) 100).dates.getD 9 0 <
      (generate_demo_data "date" (fun _ => (0 : Int)) 100).dates.getD
        8 0 := by
  refine ⟨rfl, rfl, rfl, rfl, by decide⟩

/-- C4 amended: for every keyword other than "date" (where the dict-key
collision corrupts the frame), `generate_demo_data` returns exactly 91 daily
points spanning 90 days inclusive with strictly increasing dates, in which
the i-th value equals `max(10, base_trend[i mod 15] + r_i)` for the fixed
15-value base pattern and the random offset `r_i` drawn from [-10, 10];
hence every value is at least 10.  The function is total — no error
conditions. -/
theorem generate_demo_data_spec (keyword : String) (rng : Nat → Int)
    (demoNow : Int) (hk : keyword ≠ "date")
    (h : ∀ i, -10 ≤ rng i ∧ rng i ≤ 10) :
    (generate_demo_data keyword rng demoNow).dates.length = 91 ∧
    (generate_demo_data keyword rng demoNow).dates.getD 0 0 = demoNow - 90 ∧
    (generate_demo_data keyword rng demoNow).dates.getD 90 0 = demoNow ∧
    (∀ i, i + 1 < 91 →
      (generate_demo_data keyword rng demoNow).dates.getD i 0 <
        (generate_demo_data keyword rng demoNow).dates.getD (i + 1) 0) ∧
    base_trend.length = 15 ∧
    ((generate_demo_data keyword rng demoNow).colValues keyword).length =
      91 ∧
    (∀ i, i < 91 →
      ((generate_demo_data keyword rng demoNow).colValues keyword).getD i 0 =
          max 10 (base_trend.getD (i % 15) 0 + rng i) ∧
        -10 ≤ rng i ∧ rng i ≤ 10 ∧
        10 ≤ ((generate_demo_data keyword rng demoNow).colValues
          keyword).getD i 0) := by
  have hval : ∀ i, i < 91 →
      ((generate_demo_data keyword rng demoNow).colValues keyword).getD i 0 =
        demoValue rng i := by
    intro i hi
    rw [demo_colValues keyword rng demoNow hk]
    rw [List.getD_eq_getElem _ _ (by simpa using hi)]
    simp only [List.getElem_map, List.getElem_range]
  refine ⟨demo_dates_length keyword rng demoNow hk, ?_, ?_, ?_, rfl, ?_, ?_⟩
  · rw [demo_dates_getD keyword rng demoNow hk 0 (by norm_num)]
    norm_num
  · rw [demo_dates_getD keyword rng demoNow hk 90 (by norm_num)]
    norm_num
  · intro i hi
    rw [demo_dates_getD keyword rng demoNow hk i (by omega),
      demo_dates_getD keyword rng demoNow hk (i + 1) hi]
    have : (i : Int) < ((i : Nat) + 1 : Nat) := by exact_mod_cast Nat.lt_succ_self i
    omega
  · rw [demo_colValues keyword rng demoNow hk]
    simp
  · intro i hi
    have hv := hval i hi
    rw [hv]
    refine ⟨?_, (h i).1, (h i).2, ?_⟩
    · rw [demoValue]
      rfl
    · rw [demoValue]
      exact le_max_left 10 _

/-- Witness for C4: the zero random stream realises the demo-series shape at
a concrete clock. -/
theorem generate_demo_data_spec_witness :
    (generate_demo_data "python" (fun _ => (0 : Int)) 100).dates.length =
      91 :=
  (generate_demo_data_spec "python" (fun _ => (0 : Int)) 100 (by decide)
    (fun i => ⟨by norm_num, by norm_num⟩)).1

/-- C6: Before any fetch, each handler computes the elapsed time since
`last_request_time`; with a non-empty keyword, if elapsed < 10 seconds the
handler sleeps exactly the remaining `10 - elapsed` seconds before fetching,
and if elapsed ≥ 10 seconds it proceeds without waiting — in both the page
and the analyze handler. -/
theorem rate_limiter_wait (kw : String) (now last : ℚ) (clientOk : Bool)
    (query : String → ProviderResult) (rng : Nat → Int) (demoNow : Int)
    (chartOk : Bool) (h : strip kw ≠ "") :
    (now - last < 10 →
      (index kw now last clientOk query rng demoNow chartOk).slept =
          10 - (now - last) ∧
        (analyze kw now last clientOk query rng demoNow chartOk).slept =
          10 - (now - last)) ∧
    (10 ≤ now - last →
      (index kw now last clientOk query rng demoNow chartOk).slept = 0 ∧
        (analyze kw now last clientOk query rng demoNow chartOk).slept =
          0) := by
  have hi : (index kw now last clientOk query rng demoNow chartOk).slept =
      waitFor now last := by
    simp only [index, if_neg h]
    exact index_body_slept _ _ _ _
  have ha : (analyze kw now last clientOk query rng demoNow chartOk).slept =
      waitFor now last := by
    simp only [analyze, if_neg h]
    exact analyze_body_slept _ _ _ _
  constructor
  · intro hlt
    rw [hi, ha, waitFor, if_pos hlt]
    exact ⟨rfl, rfl⟩
  · intro hge
    rw [hi, ha, waitFor, if_neg (by linarith)]
    exact ⟨rfl, rfl⟩

/-- Witness for C6: with keyword "python", 3 seconds elapsed means a
7-second sleep in both handlers. -/
theorem rate_limiter_wait_witness :
    ((3 : ℚ) - 0 < 10 →
      (index "python" 3 0 false (fun _ => ProviderResult.err)
          (fun _ => (0 : Int)) 0 true).slept = 10 - ((3 : ℚ) - 0) ∧
        (analyze "python" 3 0 false (fun _ => ProviderResult.err)
          (fun _ => (0 : Int)) 0 true).slept = 10 - ((3 : ℚ) - 0)) ∧
    ((10 : ℚ) ≤ 3 - 0 →
      (index "python" 3 0 false (fun _ => ProviderResult.err)
          (fun _ => (0 : Int)) 0 true).slept = 0 ∧
        (analyze "python" 3 0 false (fun _ => ProviderResult.err)
          (fun _ => (0 : Int)) 0 true).slept = 0) :=
  rate_limiter_wait "python" 3 0 false (fun _ => ProviderResult.err)
    (fun _ => (0 : Int)) 0 true (by decide)

/-- C7: `/analyze` returns the JSON payload {dates, values, timeframe_used,
keyword, is_demo_data} with implicit status 200 when the fetched series is
non-empty, contains the keyword column and the pipeline raises no exception;
{error} with 400 when the posted keyword strips to empty; {error} with 404
when the series is empty or lacks the keyword column; and {error} with 500
when an exception (the modelled chart-write failure) occurs after filtering. -/
theorem analyze_response_spec (kw : String) (now last : ℚ) (clientOk : Bool)
    (query : String → ProviderResult) (rng : Nat → Int) (demoNow : Int)
    (chartOk : Bool) (keyword : String) (slept : ℚ) (r : FetchResult) :
    (strip kw = "" →
      (analyze kw now last clientOk query rng demoNow chartOk).response =
        .err 400 "Please enter a keyword" ∧
      (analyze kw now last clientOk query rng demoNow
        chartOk).response.status = 400) ∧
    (strip kw ≠ "" →
      analyze kw now last clientOk query rng demoNow chartOk =
        analyze_body (strip kw) (waitFor now last)
          (get_trends_data (strip kw) clientOk query rng demoNow) chartOk) ∧
    (r.data.emptyb = false → r.data.hasColb keyword = true → chartOk = true →
      (analyze_body keyword slept r chartOk).response =
        .ok r.data.dates (r.data.colValues keyword) r.label keyword
          (!r.isReal) ∧
      (analyze_body keyword slept r chartOk).response.status = 200) ∧
    (r.data.emptyb = true ∨ r.data.hasColb keyword = false →
      (analyze_body keyword slept r chartOk).response =
        .err 404 ("No trend data found for " ++ keyword) ∧
      (analyze_body keyword slept r chartOk).response.status = 404) ∧
    (r.data.emptyb = false → r.data.hasColb keyword = true →
      chartOk = false →
      (analyze_body keyword slept r chartOk).response.status = 500) := by
  refine ⟨?_, ?_, ?_, ?_, ?_⟩
  · intro he
    rw [analyze]
    simp only [he, if_pos rfl]
    exact ⟨rfl, rfl⟩
  · intro hne
    simp only [analyze, if_neg hne]
  · intro he hc hok
    rw [analyze_body]
    simp only [he, hc, Bool.not_false, Bool.and_self, if_true, hok]
    constructor <;> trivial
  · intro hfail
    rw [analyze_body]
    have hg : (!r.data.emptyb && r.data.hasColb keyword) = false := by
      cases hfail with
      | inl h1 => simp [h1]
      | inr h2 => simp [h2]
    simp only [hg, Bool.false_eq_true, if_false]
    constructor <;> trivial
  · intro he hc hok
    rw [analyze_body]
    simp only [he, hc, Bool.not_false, Bool.and_self, if_true, hok,
      Bool.false_eq_true, if_false]
    rfl

/-- Witness for C7: a concrete empty frame takes the 404 branch, and an
empty posted keyword takes the 400 branch. -/
theorem analyze_response_spec_witness :
    (analyze_body "python" 0 ⟨⟨[], []⟩, "now 7-d", true⟩ true).response =
      .err 404 ("No trend data found for " ++ "python") ∧
    (analyze_body "python" 0 ⟨⟨[], []⟩, "now 7-d",
      true⟩ true).response.status = 404 :=
  (analyze_response_spec "" 0 0 true (fun _ => ProviderResult.err)
    (fun _ => (0 : Int)) 0 true "python" 0
    ⟨⟨[], []⟩, "now 7-d", true⟩).2.2.2.1 (Or.inl rfl)

/-- C8: On POST / with an empty (or whitespace-only) keyword, the page
handler reports the exact validation message immediately: no rate-limiter
wait, no fetch, no timestamp update, no results table and no chart write. -/
theorem index_empty_keyword (kw : String) (now last : ℚ) (clientOk : Bool)
    (query : String → ProviderResult) (rng : Nat → Int) (demoNow : Int)
    (chartOk : Bool) (h : strip kw = "") :
    index kw now last clientOk query rng demoNow chartOk =
      ⟨some .validation, none, 0, false, false, false⟩ ∧
    PageError.message .validation = "Please enter a keyword to search." := by
  rw [index]
  simp only [h, if_pos rfl]
  exact ⟨rfl, rfl⟩

/-- Witness for C8: a whitespace-only keyword takes the validation branch. -/
theorem index_empty_keyword_witness :
    index "   " 100 0 true (fun _ => ProviderResult.err)
        (fun _ => (0 : Int)) 0 true =
      ⟨some .validation, none, 0, false, false, false⟩ ∧
    PageError.message .validation = "Please enter a keyword to search." :=
  index_empty_keyword "   " 100 0 true (fun _ => ProviderResult.err)
    (fun _ => (0 : Int)) 0 true (by decide)

/-- Counterexample to C9 as stated: for keyword "date" the synthetic
fallback frame has zero columns — pandas-empty and lacking the keyword
column — so the post-fetch guard fails and the 404 / "no data found" branch
is reached with origin=synthetic. -/
theorem synthetic_fallback_guard_cex :
    (get_trends_data "date" false (fun _ => ProviderResult.err)
        (fun _ => (0 : Int)) 0).isReal = false ∧
    (get_trends_data "date" false (fun _ => ProviderResult.err)
        (fun _ => (0 : Int)) 0).data.hasColb "date" = false ∧
    (get_trends_data "date" false (fun _ => ProviderResult.err)
        (fun _ => (0 : Int)) 0).data.emptyb = true ∧
    (analyze "date" 100 0 false (fun _ => ProviderResult.err)
        (fun _ => (0 : Int)) 0 true).response.status = 404 ∧
    (index "date" 100 0 false (fun _ => ProviderResult.err)
        (fun _ => (0 : Int)) 0 true).error =
      some (PageError.noData "date") := by
  refine ⟨rfl, rfl, rfl, rfl, rfl⟩

/-- C9 amended: whenever `get_trends_data` falls back to synthetic data for
a keyword other than "date", the returned frame is non-empty and contains
the requested keyword's column, so the handlers' post-fetch guard passes on
the fallback path: the analyze handler cannot answer 404 and the page
handler cannot show the "no data found" message when the fetch was
synthetic.  (For keyword "date" the guard fails; see the counterexample.) -/
theorem synthetic_fallback_guard (kw : String) (now last : ℚ)
    (clientOk : Bool) (query : String → ProviderResult) (rng : Nat → Int)
    (demoNow : Int) (chartOk : Bool)
    (hk : strip kw ≠ "date")
    (h : (get_trends_data (strip kw) clientOk query rng demoNow).isReal =
      false) :
    (get_trends_data (strip kw) clientOk query rng demoNow).data.emptyb =
      false ∧
    (get_trends_data (strip kw) clientOk query rng demoNow).data.hasColb
      (strip kw) = true ∧
    (analyze kw now last clientOk query rng demoNow
      chartOk).response.status ≠ 404 ∧
    (index kw now last clientOk query rng demoNow chartOk).error ≠
      some (PageError.noData (strip kw)) := by
  obtain ⟨h1, h2⟩ :=
    fetch_guard_passes (strip kw) clientOk query rng demoNow hk
  refine ⟨h1, h2, ?_, ?_⟩
  · by_cases hkw : strip kw = ""
    · simp [analyze, hkw, AnalyzeResponse.status]
    · simp only [analyze, if_neg hkw, analyze_body, h1, h2, Bool.not_false,
        Bool.and_self, if_true]
      cases chartOk <;> simp [AnalyzeResponse.status]
  · by_cases hkw : strip kw = ""
    · simp [index, hkw]
    · simp only [index, if_neg hkw, index_body, h1, h2, Bool.not_false,
        Bool.and_self, if_true]
      cases chartOk <;> simp

/-- Witness for C9: an unconstructible provider client forces the synthetic
path, on which the guard passes. -/
theorem synthetic_fallback_guard_witness :
    (get_trends_data (strip "python") false (fun _ => ProviderResult.err)
        (fun _ => (0 : Int)) 0).data.emptyb = false ∧
    (get_trends_data (strip "python") false (fun _ => ProviderResult.err)
        (fun _ => (0 : Int)) 0).data.hasColb (strip "python") = true ∧
    (analyze "python" 100 0 false (fun _ => ProviderResult.err)
        (fun _ => (0 : Int)) 0 true).response.status ≠ 404 ∧
    (index "python" 100 0 false (fun _ => ProviderResult.err)
        (fun _ => (0 : Int)) 0 true).error ≠
      some (PageError.noData (strip "python")) :=
  synthetic_fallback_guard "python" 100 0 false (fun _ => ProviderResult.err)
    (fun _ => (0 : Int)) 0 true (by decide) rfl

